import Mathlib

/-!
Verification development for the web-viewer sample.

Shallow embedding of the two core modules:

* the session lifecycle controller, `src/src/App.tsx` (class `App`):
  session creation (`_startStream`), readiness polling
  (`pollForSessionReady`), route resolution and transport attach
  (`setupStream`), and teardown (`_resetStream` / `_endStream`);
* the remote-application event dispatcher, `src/unnamed/part_000`
  (the `Window` component): the inbound event classifier
  (`_handleCustomEvent`) and the proof-of-life poll
  (`_onStreamStarted` / `_pollForKitReady`).

Network responses are passed to the embedded functions as explicit
arguments (the code awaits them); console logging is not modelled
(observability only); user-visible alerts, backend calls, timer
scheduling and the transport-adapter release are reified as explicit
actions in the return values, in execution order.
-/

namespace WebViewer

/-- The `Forms` enum of App.tsx (lines 40-49). -/
inductive Forms where
  | IDLE
  | AppOnly
  | StreamURLs
  | Applications
  | Versions
  | Profiles
  | Stream
  | StreamOnly
  deriving DecidableEq, Repr

/-- The `StreamStatus` enum of App.tsx (lines 34-38). -/
inductive StreamStatus where
  | IDLE
  | INITIALIZING
  | INITIALIZED
  deriving DecidableEq, Repr

/-- One route descriptor of a session: `{description, source_port}`
(see the `routes` arrays consumed by `setupStream`, App.tsx 215-222). -/
structure Route where
  description : String
  source_port : Nat
  deriving DecidableEq, Repr

/-- The per-host route list: `createdStream.routes[serverIP].routes`. -/
structure HostRoutes where
  routes : List Route
  deriving DecidableEq, Repr

/-- A created-session descriptor (`StreamItem` from Endpoints): an id and a
mapping host -> route list. The JavaScript object mapping is modelled as an
insertion-ordered association list, so `Object.keys(routes)[0]` is the first
component of `routes.head?`. -/
structure StreamItem where
  id : String
  routes : List (String × HostRoutes)
  deriving DecidableEq, Repr

/-- The `stream` section of the static configuration file. -/
structure StreamConfigStream where
  streamServer : String
  appServer : String
  deriving DecidableEq, Repr

/-- The static configuration (`stream.config.json`). -/
structure StreamConfig where
  stream : StreamConfigStream
  source : String
  deriving DecidableEq, Repr

/-- The controller component state (App.tsx lines 51-71).
`applications` holds records of the external `Application` type (declared in
Forms.tsx, outside the modelled core); only the empty list is ever stored on
the paths the claims concern, so the element type is kept opaque as `String`. -/
structure AppState where
  currentForm : Forms
  useWebUI : Bool
  streamServer : String
  appServer : String
  applications : List String
  applicationVersions : List String
  applicationProfiles : List String
  selectedApplicationId : String
  selectedApplicationVersion : String
  selectedApplicationProfile : String
  streamStatus : StreamStatus
  connectionText : String
  backendUrl : String
  signalingserver : String
  signalingport : Nat
  mediaserver : String
  mediaport : Nat
  accessToken : String
  sessionId : String
  deriving DecidableEq, Repr

/-- `_resetState` (App.tsx 104-126): every field back to its default; this is
also the constructor state (App.tsx 76-96). -/
def resetState (cfg : StreamConfig) : AppState :=
  { currentForm := Forms.AppOnly
    useWebUI := true
    streamServer := cfg.stream.streamServer
    appServer := cfg.stream.appServer
    applications := []
    applicationVersions := []
    applicationProfiles := []
    selectedApplicationId := ""
    selectedApplicationVersion := ""
    selectedApplicationProfile := ""
    streamStatus := StreamStatus.IDLE
    connectionText := ""
    backendUrl := ""
    signalingserver := ""
    signalingport := 0
    mediaserver := ""
    mediaport := 0
    accessToken := ""
    sessionId := "" }

/-- A backend HTTP-style response whose body the code casts `as StreamItem`
(create and session-info endpoints). -/
structure Response where
  status : Nat
  data : StreamItem
  deriving DecidableEq, Repr

/-- A backend call issued by the controller. -/
inductive BackendCall where
  | query (server sessionId : String)
  | destroy (server sessionId : String)
  deriving DecidableEq, Repr

/-- What one invocation of `pollForSessionReady` decides to do next. -/
inductive PollAction where
  | setup (item : StreamItem)
  | reschedule (sessionId : String) (delayMs : Nat)
  | halt
  deriving DecidableEq, Repr

/-- One invocation of `pollForSessionReady` (App.tsx 133-154), given the
result of the awaited `getStreamingSessionInfo` call (`none` models the call
throwing, which the `catch` block turns into a silent stop). Returns the
backend call it issues and the follow-up action. The only component of the
controller state the source reads here is `streamServer` (the request target);
the decision between `setup` and `reschedule` (10000 ms) depends solely on the
response status, never on the current lifecycle state. -/
def pollForSessionReadyStep (s : AppState) (sessionId : String)
    (resp : Option Response) : BackendCall × PollAction :=
  (BackendCall.query s.streamServer sessionId,
   match resp with
   | none => PollAction.halt
   | some r =>
     if r.status = 200 then PollAction.setup r.data
     else PollAction.reschedule sessionId 10000)

/-- Outcome of `setupStream` (App.tsx 210-240). `crash` models the JavaScript
TypeError raised when the route mapping is empty (`Object.keys(routes)[0]` is
then `undefined` and indexing with it throws, before any state change). -/
inductive SetupOutcome where
  | crash
  | missingRoute
  | attached
  deriving DecidableEq, Repr

/-- `setupStream` (App.tsx 210-240): takes the first host of the route
mapping, looks up the routes tagged `"signaling"` and `"media"` with `find`,
aborts (state unchanged, only a console error) when either is missing, and
otherwise stores the connection parameters and transitions to
`Forms.Stream` / `StreamStatus.INITIALIZED`. -/
def setupStream (s : AppState) (createdStream : StreamItem) :
    AppState × SetupOutcome :=
  match createdStream.routes.head? with
  | none => (s, SetupOutcome.crash)
  | some (serverIP, hostRoutes) =>
    let routeData := hostRoutes.routes
    let signalingData := routeData.find? fun item => item.description = "signaling"
    let mediaData := routeData.find? fun item => item.description = "media"
    match signalingData, mediaData with
    | some sig, some med =>
      ({ s with
          backendUrl := s.streamServer ++ "/streaming/stream"
          signalingserver := serverIP
          signalingport := sig.source_port
          mediaserver := serverIP
          mediaport := med.source_port
          accessToken := ""
          sessionId := createdStream.id
          currentForm := Forms.Stream
          streamStatus := StreamStatus.INITIALIZED },
       SetupOutcome.attached)
    | _, _ => (s, SetupOutcome.missingRoute)

/-- The poll chain started on a 202 creation (App.tsx 197-199, then 133-154):
given the sequence of session-info responses the backend returns at the
successive poll invocations, runs until the first 200 (which invokes
`setupStream`, after which nothing is rescheduled, so later responses never
happen). Returns the resulting state and the number of `setupStream`
invocations. An exhausted list means the next retry is still pending. -/
def pollRun (s : AppState) (sessionId : String) :
    List Response → AppState × Nat
  | [] => (s, 0)
  | r :: rs =>
    if r.status = 200 then ((setupStream s r.data).1, 1)
    else pollRun s sessionId rs

/-- Observable outcome of a `_startStream` attempt. -/
structure FlowResult where
  state : AppState
  setupCalls : Nat
  alerts : Nat
  deriving DecidableEq, Repr

/-- `_startStream` (App.tsx 164-203) followed, on the 202 path, by the poll
chain. `createResp` is the awaited `createStreamingSession` result; `polls`
are the session-info responses seen by the poll chain. Mirrors the source
order: first the two `setState` calls (form, profile, connection text), then
the guard `createdStreamResponse.status > 400` (alert + `_resetState` +
return), then storing the session id with `INITIALIZING`, then either the
poll chain (status 202) or a direct `setupStream`. `setupCalls` counts
route-resolution attempts, `alerts` the user-visible failure alerts. -/
def startStreamFlow (cfg : StreamConfig) (s : AppState) (profile : String)
    (createResp : Response) (polls : List Response) : FlowResult :=
  let s0 := { s with
      currentForm := Forms.IDLE
      selectedApplicationProfile := profile
      connectionText := "Attempting to create streaming session..." }
  if createResp.status > 400 then
    { state := resetState cfg, setupCalls := 0, alerts := 1 }
  else
    let s1 := { s0 with
        sessionId := createResp.data.id
        streamStatus := StreamStatus.INITIALIZING
        connectionText := "Attempting to load stream..." }
    if createResp.status = 202 then
      let pr := pollRun s1 createResp.data.id polls
      { state := pr.1, setupCalls := pr.2, alerts := 0 }
    else
      { state := (setupStream s1 createResp.data).1, setupCalls := 1, alerts := 0 }

/-- One step of the teardown sequence, in execution order. -/
inductive TeardownAction where
  | backendQuery
  | backendDestroy
  | alert (detail : String)
  | resetLocalState
  | terminateStream
  deriving DecidableEq, Repr

/-- `_endStream` (App.tsx 254-278) as its sequence of observable actions.
`infoResp` is the awaited `getStreamingSessionInfo` result, `destroyResp` the
awaited `destroyStreamingSession` result (`some d` models a body carrying
`detail: d`, which the code surfaces with `alert`). The guard
`if (!sessionId) return` fires exactly when the held id is the empty string
(the only falsy string). Every branch returns normally. -/
def endStreamActions (s : AppState) (infoResp : Response)
    (destroyResp : Option String) : List TeardownAction :=
  if s.sessionId = "" then []
  else if infoResp.status ≠ 200 then [TeardownAction.backendQuery]
  else
    match destroyResp with
    | some d => [TeardownAction.backendQuery, TeardownAction.backendDestroy,
                 TeardownAction.alert d]
    | none => [TeardownAction.backendQuery, TeardownAction.backendDestroy]

/-- Result of a full `_resetStream` invocation. -/
structure TeardownResult where
  actions : List TeardownAction
  state : AppState
  deriving DecidableEq, Repr

/-- `_resetStream` (App.tsx 245-249): awaits `_endStream`, then `_resetState`,
then `AppStreamer.terminate()` — unconditionally, in that order. -/
def resetStreamRun (cfg : StreamConfig) (s : AppState) (infoResp : Response)
    (destroyResp : Option String) : TeardownResult :=
  { actions := endStreamActions s infoResp destroyResp
               ++ [TeardownAction.resetLocalState, TeardownAction.terminateStream]
    state := resetState cfg }

/-- The alert details surfaced during a teardown, in order. -/
def alertsIn (as : List TeardownAction) : List String :=
  as.filterMap fun a =>
    match a with
    | TeardownAction.alert d => some d
    | _ => none

/-- Whether a teardown action is a backend (query or destroy) call. -/
def isBackendCall : TeardownAction → Bool
  | TeardownAction.backendQuery => true
  | TeardownAction.backendDestroy => true
  | _ => false

/-- The payload of an inbound protocol event. The dispatcher reads at most
`payload.result` and `payload.url`; absent properties are `none`. -/
structure Payload where
  result : Option String
  url : Option String
  deriving DecidableEq, Repr

/-- An inbound event of the stream message protocol, the
`AppStreamMessageType` interface of part_000 (lines 25-28):
`{event_type, payload}`. -/
structure StreamEvent where
  event_type : String
  payload : Payload
  deriving DecidableEq, Repr

/-- An outbound message to the remote application: the dispatcher only ever
sends `{"event_type": "loadingStateQuery", "payload": \x7b\x7d}`
(`_queryLoadingState`, part_000 lines 54-60). -/
inductive OutMessage where
  | loadingStateQuery
  deriving DecidableEq, Repr

/-- The dispatcher component state (part_000 lines 17-23). -/
structure RemoteAppState where
  isKitReady : Bool
  showStream : Bool
  showUI : Bool
  isLoading : Bool
  loadingText : String
  deriving DecidableEq, Repr

/-- `_handleCustomEvent` (part_000 lines 108-154): first-match dispatch on
`event_type`, returning the new state and the outbound messages sent. The
`if (!event)` null guard is subsumed by events being records here. The
trailing block at lines 150-153 only logs diagnostics for messages carrying a
`messageRecipient` field, which protocol events (`AppStreamMessageType`) do
not; it performs no state change and sends nothing, so it has no observable
effect in this model. The function is total: no protocol event makes it
throw. -/
def handleCustomEvent (s : RemoteAppState) (event : StreamEvent) :
    RemoteAppState × List OutMessage :=
  if event.event_type = "openedStageResult" then
    if event.payload.result = some "success" then
      (s, [OutMessage.loadingStateQuery])
    else
      (s, [])
  else if event.event_type = "loadingStateResponse" then
    if s.isKitReady = false then
      ({ s with isKitReady := true }, [OutMessage.loadingStateQuery])
    else (s, [])
  else if event.event_type = "updateProgressAmount" then
    (s, [])
  else if event.event_type = "updateProgressActivity" then
    if s.loadingText ≠ "Loading Asset..." then
      ({ s with loadingText := "Loading Asset...", isLoading := true }, [])
    else (s, [])
  else (s, [])

/-- Folds `handleCustomEvent` over a sequence of delivered events,
collecting all outbound messages. -/
def runEvents (s : RemoteAppState) :
    List StreamEvent → RemoteAppState × List OutMessage
  | [] => (s, [])
  | e :: es =>
    let r1 := handleCustomEvent s e
    let r2 := runEvents r1.1 es
    (r2.1, r1.2 ++ r2.2)

/-- One invocation of `_pollForKitReady` (part_000 lines 80-86): if
`isKitReady` is already true it returns at once (no query, no reschedule);
otherwise it sends one `loadingStateQuery` and schedules the next invocation
3000 ms later. Returns the messages sent and the reschedule delay, if any. -/
def pollForKitReady (s : RemoteAppState) : List OutMessage × Option Nat :=
  if s.isKitReady = true then ([], none)
  else ([OutMessage.loadingStateQuery], some 3000)

/-- `_onStreamStarted` (part_000 lines 70-72): on the transport "started"
callback, immediately runs the first `_pollForKitReady` invocation. -/
def onStreamStarted (s : RemoteAppState) : List OutMessage × Option Nat :=
  pollForKitReady s

/-- The proof-of-life poll chain: given the dispatcher state observed at each
successive invocation, returns the total number of queries sent and whether a
further invocation is still scheduled after the observed ticks. Once an
invocation does not reschedule, no later tick exists, so the rest of the list
is not consumed. -/
def pollKitRun : List RemoteAppState → Nat × Bool
  | [] => (0, true)
  | s :: rest =>
    match pollForKitReady s with
    | (msgs, some _) =>
      let r := pollKitRun rest
      (msgs.length + r.1, r.2)
    | (msgs, none) => (msgs.length, false)

/-- Sample configuration used by the concrete evaluations below. -/
def cfg₀ : StreamConfig :=
  { stream := { streamServer := "srv", appServer := "app" }, source := "stream" }

/-- Sample signaling route. -/
def sig₀ : Route := { description := "signaling", source_port := 31000 }

/-- Sample media route. -/
def med₀ : Route := { description := "media", source_port := 31001 }

/-- Sample per-host route list carrying both tagged routes. -/
def hr₀ : HostRoutes := { routes := [sig₀, med₀] }

/-- Sample session descriptor with a complete route mapping. -/
def item₀ : StreamItem := { id := "sess1", routes := [("host", hr₀)] }

/-- Sample session descriptor whose only host lacks a media route. -/
def itemNoMedia : StreamItem :=
  { id := "sess2", routes := [("host", { routes := [sig₀] })] }

/-- The default controller state for the sample configuration. -/
def sBase : AppState := resetState cfg₀

/-- A controller state holding a session id. -/
def sHeld : AppState := { sBase with sessionId := "sess1" }

/-- Sample dispatcher state with the kit not yet ready. -/
def rsNotReady : RemoteAppState :=
  { isKitReady := false, showStream := true, showUI := false
    isLoading := true, loadingText := "Waiting for stream to begin" }

/-- Sample dispatcher state after the kit became ready. -/
def rsReady : RemoteAppState := { rsNotReady with isKitReady := true }

/-- The poll chain skips every non-200 response and invokes `setupStream`
exactly once, at the first 200. -/
lemma pollRun_ready (s : AppState) (sid : String) (item : StreamItem)
    (pre : List Response) (hpre : ∀ r ∈ pre, r.status ≠ 200) :
    pollRun s sid (pre ++ [{ status := 200, data := item }]) =
      ((setupStream s item).1, 1) := by
  induction pre with
  | nil => simp [pollRun]
  | cons r rs ih =>
    have hr : r.status ≠ 200 := hpre r (List.mem_cons_self r rs)
    simp only [List.cons_append, pollRun, if_neg hr]
    exact ih fun q hq => hpre q (List.mem_cons_of_mem r hq)

/-- When the first host carries both tagged routes, `setupStream` stores the
connection parameters and transitions to the streaming form. -/
lemma setupStream_attached (s : AppState) (item : StreamItem)
    (serverIP : String) (hrt : HostRoutes) (sig med : Route)
    (hhead : item.routes.head? = some (serverIP, hrt))
    (hsig : hrt.routes.find? (fun r => r.description = "signaling") = some sig)
    (hmed : hrt.routes.find? (fun r => r.description = "media") = some med) :
    setupStream s item =
      ({ s with
          backendUrl := s.streamServer ++ "/streaming/stream"
          signalingserver := serverIP
          signalingport := sig.source_port
          mediaserver := serverIP
          mediaport := med.source_port
          accessToken := ""
          sessionId := item.id
          currentForm := Forms.Stream
          streamStatus := StreamStatus.INITIALIZED },
       SetupOutcome.attached) := by
  simp [setupStream, hhead, hsig, hmed]

/-- No handler branch ever clears `isKitReady`. -/
lemma handle_keeps_kitReady (s : RemoteAppState) (e : StreamEvent)
    (h : s.isKitReady = true) : (handleCustomEvent s e).1.isKitReady = true := by
  unfold handleCustomEvent
  split_ifs <;> simp_all

/-- Once `isKitReady` is true, no event sequence can clear it. -/
lemma runEvents_keeps_kitReady (evts : List StreamEvent) :
    ∀ s : RemoteAppState, s.isKitReady = true →
      (runEvents s evts).1.isKitReady = true := by
  induction evts with
  | nil => intro s h; exact h
  | cons e es ih =>
    intro s h
    exact ih _ (handle_keeps_kitReady s e h)

/-- While the kit is not ready, each proof-of-life tick sends one query and
the chain stays armed. -/
lemma pollKitRun_all_not_ready (pre : List RemoteAppState)
    (h : ∀ u ∈ pre, u.isKitReady = false) :
    pollKitRun pre = (pre.length, true) := by
  induction pre with
  | nil => rfl
  | cons u us ih =>
    have hu : u.isKitReady = false := h u (List.mem_cons_self u us)
    have ih2 := ih fun v hv => h v (List.mem_cons_of_mem u hv)
    simp [pollKitRun, pollForKitReady, hu, ih2, Nat.add_comm]

/-- The first ready tick sends nothing, schedules nothing, and ends the
chain. -/
lemma pollKitRun_terminated (pre rest : List RemoteAppState)
    (t : RemoteAppState)
    (hpre : ∀ u ∈ pre, u.isKitReady = false) (ht : t.isKitReady = true) :
    pollKitRun (pre ++ t :: rest) = (pre.length, false) := by
  induction pre with
  | nil => simp [pollKitRun, pollForKitReady, ht]
  | cons u us ih =>
    have hu : u.isKitReady = false := hpre u (List.mem_cons_self u us)
    have ih2 := ih fun v hv => hpre v (List.mem_cons_of_mem u hv)
    simp [pollKitRun, pollForKitReady, hu, ih2, Nat.add_comm]

/-- Claim C1. The spec requires every creation response with status >= 400 to
reset the controller to Idle, surface the failure once, and never attempt
route resolution. The code tests `status > 400` (App.tsx 181), so a response
with status exactly 400 takes the success path: the session id is stored,
`setupStream` performs route resolution and transitions to the streaming
form, and no alert is shown — while 401 behaves as the spec says. -/
theorem startStream_status400_bug :
    (startStreamFlow cfg₀ sBase "p" { status := 400, data := item₀ } []).alerts = 0 ∧
    (startStreamFlow cfg₀ sBase "p" { status := 400, data := item₀ } []).setupCalls = 1 ∧
    (startStreamFlow cfg₀ sBase "p" { status := 400, data := item₀ } []).state.sessionId = "sess1" ∧
    (startStreamFlow cfg₀ sBase "p" { status := 400, data := item₀ } []).state.currentForm = Forms.Stream ∧
    (startStreamFlow cfg₀ sBase "p" { status := 400, data := item₀ } []).state.streamStatus = StreamStatus.INITIALIZED ∧
    (startStreamFlow cfg₀ sBase "p" { status := 400, data := item₀ } []).state ≠ resetState cfg₀ ∧
    (startStreamFlow cfg₀ sBase "p" { status := 401, data := item₀ } []).alerts = 1 ∧
    (startStreamFlow cfg₀ sBase "p" { status := 401, data := item₀ } []).setupCalls = 0 ∧
    (startStreamFlow cfg₀ sBase "p" { status := 401, data := item₀ } []).state = resetState cfg₀ := by
  decide

/-- Claim C2. The spec requires an in-flight poll to detect, from the current
controller state, that the session was torn down and to stop rescheduling.
The decision logic of `pollForSessionReady` (App.tsx 140-150) never reads the
lifecycle state: evaluated at the post-teardown state (`resetState`, session
id cleared), a 202 session-info response still schedules a retry 10000 ms
later, a 200 response still attaches, and the decision is the same for every
pair of controller states. -/
theorem poll_reschedules_after_teardown :
    (pollForSessionReadyStep (resetState cfg₀) "sess1"
        (some { status := 202, data := item₀ })).2 =
      PollAction.reschedule "sess1" 10000 ∧
    (pollForSessionReadyStep (resetState cfg₀) "sess1"
        (some { status := 200, data := item₀ })).2 =
      PollAction.setup item₀ ∧
    ∀ (s t : AppState) (sid : String) (r : Option Response),
      (pollForSessionReadyStep s sid r).2 = (pollForSessionReadyStep t sid r).2 :=
  ⟨rfl, rfl, fun _ _ _ _ => rfl⟩

/-- Claim C3. For every teardown of a held session, whatever the session-info
status and the destroy outcome: the local state is reset to the defaults
(Idle, empty session id), the transport adapter is released as the very last
step, and an error detail in the destroy response is surfaced exactly then —
without preventing the reset. -/
theorem endSession_always_resets (cfg : StreamConfig) (s : AppState)
    (infoResp : Response) (destroyResp : Option String)
    (h : s.sessionId ≠ "") :
    (resetStreamRun cfg s infoResp destroyResp).state = resetState cfg ∧
    (resetState cfg).streamStatus = StreamStatus.IDLE ∧
    (resetState cfg).sessionId = "" ∧
    (resetStreamRun cfg s infoResp destroyResp).actions.getLast? =
      some TeardownAction.terminateStream ∧
    alertsIn (resetStreamRun cfg s infoResp destroyResp).actions =
      (if infoResp.status = 200 then destroyResp.toList else []) := by
  refine ⟨rfl, rfl, rfl, ?_, ?_⟩ <;>
  · simp only [resetStreamRun, endStreamActions, if_neg h]
    by_cases h2 : infoResp.status = 200 <;> cases destroyResp <;>
      simp [h2, alertsIn]

/-- Witness for C3 at a concrete held session whose destroy response carries
an error detail. -/
theorem endSession_always_resets_witness :
    (resetStreamRun cfg₀ sHeld { status := 200, data := item₀ } (some "denied")).state
        = resetState cfg₀ ∧
    (resetState cfg₀).streamStatus = StreamStatus.IDLE ∧
    (resetState cfg₀).sessionId = "" ∧
    (resetStreamRun cfg₀ sHeld { status := 200, data := item₀ } (some "denied")).actions.getLast?
        = some TeardownAction.terminateStream ∧
    alertsIn (resetStreamRun cfg₀ sHeld { status := 200, data := item₀ } (some "denied")).actions
        = (if (200 : Nat) = 200 then (some "denied").toList else []) :=
  endSession_always_resets cfg₀ sHeld { status := 200, data := item₀ }
    (some "denied") (by decide)

/-- Claim C4. With a non-empty route mapping whose first host carries both a
"signaling" and a "media" route, `setupStream` runs exactly once per ready
session — directly on a 200 creation, or after any number of non-ready poll
responses on a 202 creation — both paths end in the same state, whose
signaling and media hosts are the first host, whose ports come from the
matching routes, with `Forms.Stream` and `StreamStatus.INITIALIZED`. -/
theorem ready_setup_once (cfg : StreamConfig) (s : AppState)
    (profile serverIP : String) (item : StreamItem) (hrt : HostRoutes)
    (sig med : Route) (pre : List Response)
    (hhead : item.routes.head? = some (serverIP, hrt))
    (hsig : hrt.routes.find? (fun r => r.description = "signaling") = some sig)
    (hmed : hrt.routes.find? (fun r => r.description = "media") = some med)
    (hpre : ∀ r ∈ pre, r.status ≠ 200) :
    (startStreamFlow cfg s profile { status := 200, data := item } []).setupCalls = 1 ∧
    (startStreamFlow cfg s profile { status := 202, data := item }
        (pre ++ [{ status := 200, data := item }])).setupCalls = 1 ∧
    (startStreamFlow cfg s profile { status := 202, data := item }
        (pre ++ [{ status := 200, data := item }])).state =
      (startStreamFlow cfg s profile { status := 200, data := item } []).state ∧
    (startStreamFlow cfg s profile { status := 200, data := item } []).state.signalingserver = serverIP ∧
    (startStreamFlow cfg s profile { status := 200, data := item } []).state.signalingport = sig.source_port ∧
    (startStreamFlow cfg s profile { status := 200, data := item } []).state.mediaserver = serverIP ∧
    (startStreamFlow cfg s profile { status := 200, data := item } []).state.mediaport = med.source_port ∧
    (startStreamFlow cfg s profile { status := 200, data := item } []).state.currentForm = Forms.Stream ∧
    (startStreamFlow cfg s profile { status := 200, data := item } []).state.streamStatus = StreamStatus.INITIALIZED := by
  simp only [startStreamFlow]
  norm_num
  rw [pollRun_ready _ _ item pre hpre,
      setupStream_attached _ item serverIP hrt sig med hhead hsig hmed]
  simp

/-- Witness for C4: one not-yet-ready poll response, then ready. -/
theorem ready_setup_once_witness :
    (startStreamFlow cfg₀ sBase "p" { status := 200, data := item₀ } []).setupCalls = 1 ∧
    (startStreamFlow cfg₀ sBase "p" { status := 202, data := item₀ }
        ([{ status := 202, data := item₀ }] ++ [{ status := 200, data := item₀ }])).setupCalls = 1 ∧
    (startStreamFlow cfg₀ sBase "p" { status := 202, data := item₀ }
        ([{ status := 202, data := item₀ }] ++ [{ status := 200, data := item₀ }])).state =
      (startStreamFlow cfg₀ sBase "p" { status := 200, data := item₀ } []).state ∧
    (startStreamFlow cfg₀ sBase "p" { status := 200, data := item₀ } []).state.signalingserver = "host" ∧
    (startStreamFlow cfg₀ sBase "p" { status := 200, data := item₀ } []).state.signalingport = sig₀.source_port ∧
    (startStreamFlow cfg₀ sBase "p" { status := 200, data := item₀ } []).state.mediaserver = "host" ∧
    (startStreamFlow cfg₀ sBase "p" { status := 200, data := item₀ } []).state.mediaport = med₀.source_port ∧
    (startStreamFlow cfg₀ sBase "p" { status := 200, data := item₀ } []).state.currentForm = Forms.Stream ∧
    (startStreamFlow cfg₀ sBase "p" { status := 200, data := item₀ } []).state.streamStatus = StreamStatus.INITIALIZED :=
  ready_setup_once cfg₀ sBase "p" "host" item₀ hr₀ sig₀ med₀
    [{ status := 202, data := item₀ }] (by decide) (by decide) (by decide)
    (by decide)

/-- Claim C5. When the first host of the route mapping lacks a "signaling" or
a "media" route, `setupStream` aborts: the state is returned unchanged (no
connection parameters, no transition to the streaming form). -/
theorem missing_route_aborts (s : AppState) (item : StreamItem)
    (serverIP : String) (hrt : HostRoutes)
    (hhead : item.routes.head? = some (serverIP, hrt))
    (hmiss : hrt.routes.find? (fun r => r.description = "signaling") = none ∨
             hrt.routes.find? (fun r => r.description = "media") = none) :
    setupStream s item = (s, SetupOutcome.missingRoute) := by
  rcases hmiss with hm | hm
  · simp [setupStream, hhead, hm]
  · cases hs : hrt.routes.find? (fun r => r.description = "signaling") with
    | none => simp [setupStream, hhead, hs]
    | some sig => simp [setupStream, hhead, hs, hm]

/-- Witness for C5: a descriptor whose only host has no media route. -/
theorem missing_route_aborts_witness :
    setupStream sBase itemNoMedia = (sBase, SetupOutcome.missingRoute) :=
  missing_route_aborts sBase itemNoMedia "host" { routes := [sig₀] }
    (by decide) (Or.inr (by decide))

/-- Claim C6. End-session is idempotent at the controller level: with no held
session id `_endStream` makes no backend call and returns normally, and after
a first teardown (which makes at most the query and the destroy call) the
second teardown performs only the local reset and the transport release —
zero backend calls — and, being a total function, never throws. -/
theorem endSession_idempotent (cfg : StreamConfig) (s : AppState)
    (i1 i2 : Response) (d1 d2 : Option String) :
    endStreamActions { s with sessionId := "" } i1 d1 = [] ∧
    (resetStreamRun cfg (resetStreamRun cfg s i1 d1).state i2 d2).actions =
      [TeardownAction.resetLocalState, TeardownAction.terminateStream] ∧
    ((resetStreamRun cfg s i1 d1).actions.filter isBackendCall).length ≤ 2 := by
  refine ⟨by simp [endStreamActions], by simp [resetStreamRun, endStreamActions, resetState], ?_⟩
  by_cases h : s.sessionId = "" <;> by_cases h2 : i1.status = 200 <;>
    cases d1 <;>
      simp [resetStreamRun, endStreamActions, isBackendCall, h, h2]

/-- Claim C7. On a `loadingStateResponse`: received while the kit is not yet
ready, it sets `isKitReady` and sends exactly one further
`loadingStateQuery`; received afterwards, it changes nothing and sends
nothing; and no sequence of events ever clears `isKitReady` again. -/
theorem kitReady_latch (s : RemoteAppState) (p : Payload)
    (evts : List StreamEvent) :
    handleCustomEvent { s with isKitReady := false }
        { event_type := "loadingStateResponse", payload := p } =
      ({ s with isKitReady := true }, [OutMessage.loadingStateQuery]) ∧
    handleCustomEvent { s with isKitReady := true }
        { event_type := "loadingStateResponse", payload := p } =
      ({ s with isKitReady := true }, []) ∧
    (runEvents { s with isKitReady := true } evts).1.isKitReady = true :=
  ⟨rfl, rfl, runEvents_keeps_kitReady evts _ rfl⟩

/-- Claim C8. An `openedStageResult` whose payload result is not "success"
only reports the load error: the state is returned unchanged and no message
is sent. -/
theorem openedStage_failure_noop (s : RemoteAppState) (p : Payload)
    (hp : p.result ≠ some "success") :
    handleCustomEvent s { event_type := "openedStageResult", payload := p } =
      (s, []) := by
  simp [handleCustomEvent, hp]

/-- Witness for C8 at a concrete failed stage-open result. -/
theorem openedStage_failure_noop_witness :
    handleCustomEvent rsNotReady
        { event_type := "openedStageResult",
          payload := { result := some "error", url := some "file.usd" } } =
      (rsNotReady, []) :=
  openedStage_failure_noop rsNotReady
    { result := some "error", url := some "file.usd" } (by decide)

/-- Claim C9. An event whose tag is none of the four recognized ones is a
forward-compatible no-op: the dispatcher (a total function, so handling never
throws) returns the state unchanged and sends nothing. -/
theorem unrecognized_event_noop (s : RemoteAppState) (e : StreamEvent)
    (h1 : e.event_type ≠ "openedStageResult")
    (h2 : e.event_type ≠ "loadingStateResponse")
    (h3 : e.event_type ≠ "updateProgressAmount")
    (h4 : e.event_type ≠ "updateProgressActivity") :
    handleCustomEvent s e = (s, []) := by
  simp [handleCustomEvent, h1, h2, h3, h4]

/-- Witness for C9 at a concrete unrecognized tag. -/
theorem unrecognized_event_noop_witness :
    handleCustomEvent rsNotReady
        { event_type := "telemetry", payload := { result := none, url := none } } =
      (rsNotReady, []) :=
  unrecognized_event_noop rsNotReady
    { event_type := "telemetry", payload := { result := none, url := none } }
    (by decide) (by decide) (by decide) (by decide)

/-- Claim C10. After the transport reports started, the first poll runs
immediately: while the kit is not ready each invocation sends one
`loadingStateQuery` and reschedules itself 3000 ms (the 3 time units of the
spec) later, for any number of ticks; at the first invocation that observes
`isKitReady`, nothing is sent, nothing is rescheduled, and the chain ends. -/
theorem pollKit_proof_of_life (s : RemoteAppState)
    (pre rest : List RemoteAppState) (t : RemoteAppState)
    (hpre : ∀ u ∈ pre, u.isKitReady = false) (ht : t.isKitReady = true) :
    onStreamStarted { s with isKitReady := false } =
      ([OutMessage.loadingStateQuery], some 3000) ∧
    pollForKitReady { s with isKitReady := true } = ([], none) ∧
    pollKitRun pre = (pre.length, true) ∧
    pollKitRun (pre ++ t :: rest) = (pre.length, false) :=
  ⟨rfl, rfl, pollKitRun_all_not_ready pre hpre,
   pollKitRun_terminated pre rest t hpre ht⟩

/-- Witness for C10: two not-ready ticks, then a ready one. -/
theorem pollKit_proof_of_life_witness :
    onStreamStarted { rsNotReady with isKitReady := false } =
      ([OutMessage.loadingStateQuery], some 3000) ∧
    pollForKitReady { rsNotReady with isKitReady := true } = ([], none) ∧
    pollKitRun [rsNotReady, rsNotReady] = ([rsNotReady, rsNotReady].length, true) ∧
    pollKitRun ([rsNotReady, rsNotReady] ++ rsReady :: [rsNotReady]) =
      ([rsNotReady, rsNotReady].length, false) :=
  pollKit_proof_of_life rsNotReady [rsNotReady, rsNotReady] [rsNotReady]
    rsReady (by decide) (by decide)

end WebViewer
